import Mathlib

/-!
Verification development for the gfr-savant document downloader.

Text is embedded as `List Char` (the data of a Python `str`); the string
operations used by the source (`re.sub` removal of a character class,
`str.join`, `str.strip`, `str.lower`, `int(str)`, `os.path.splitext`,
substring tests and `str.replace`) are modelled character-faithfully on
ASCII input, which covers every string the repository manipulates.
-/

namespace GfrSavant

abbrev Str := List Char

/-- The character class removed by `re.sub(r'[\\/:*?"<>|]', '', name)` in
`models.py` (and by the chained `str.replace` calls in
`Client._sanitize_folder_name`). -/
def isSpecialChar (c : Char) : Bool :=
  c = '\\' || c = '/' || c = ':' || c = '*' || c = '?' || c = '"' || c = '<' || c = '>' || c = '|'

/-- `re.sub(r'[\\/:*?"<>|]', '', s)`: delete every special filesystem character. -/
def stripSpecial (s : Str) : Str :=
  s.filter (fun c => !(isSpecialChar c))

/-- `"_".join(items)` from `Document._generate_document_name_without_id`. -/
def joinUnderscore : List Str → Str
  | [] => []
  | [x] => x
  | x :: y :: rest => x ++ '_' :: joinUnderscore (y :: rest)

/-- ASCII whitespace, the characters removed by `str.strip()` and skipped by
`int(str)` on the inputs this program handles. -/
def isWs (c : Char) : Bool :=
  c = ' ' || c = '\t' || c = '\n' || c = '\r' || c = '\x0b' || c = '\x0c'

/-- Python `str.strip()`: drop whitespace from both ends. -/
def stripWs (s : Str) : Str :=
  ((s.dropWhile isWs).reverse.dropWhile isWs).reverse

/-- Python `str.lower()` (ASCII fragment). -/
def pyLower (s : Str) : Str :=
  s.map Char.toLower

/-- Value of an ASCII decimal digit. -/
def digitVal (c : Char) : Option Nat :=
  if '0' ≤ c ∧ c ≤ '9' then some (c.toNat - 48) else none

/-- Digits of an integer literal after the first digit: Python allows a single
underscore between two digits (`int("1_000")` succeeds, `int("1__0")` and
`int("1_")` raise `ValueError`). -/
def parseDigitsAux : Nat → List Char → Option Nat
  | acc, [] => some acc
  | acc, '_' :: c :: rest =>
    match digitVal c with
    | some d => parseDigitsAux (acc * 10 + d) rest
    | none => none
  | acc, c :: rest =>
    match digitVal c with
    | some d => parseDigitsAux (acc * 10 + d) rest
    | none => none

/-- Unsigned decimal literal: at least one digit, underscores only between digits. -/
def parseUDec : List Char → Option Nat
  | [] => none
  | c :: rest =>
    match digitVal c with
    | some d => parseDigitsAux d rest
    | none => none

/-- Python `int(s)` for a `str` argument: strip whitespace, optional sign,
decimal digits; `none` models `ValueError`. -/
def pythonInt (s : Str) : Option Int :=
  match stripWs s with
  | '+' :: rest => (parseUDec rest).map Int.ofNat
  | '-' :: rest => (parseUDec rest).map (fun n => -(n : Int))
  | t => (parseUDec t).map Int.ofNat

/-- `startsWith needle hay`: `needle` is a prefix of `hay`. -/
def startsWith : List Char → List Char → Bool
  | [], _ => true
  | _ :: _, [] => false
  | a :: as, b :: bs => a = b && startsWith as bs

/-- Python `needle in hay` substring test. -/
def isSubstr (needle : Str) : Str → Bool
  | [] => startsWith needle []
  | c :: rest => startsWith needle (c :: rest) || isSubstr needle rest

/-- Python `s.replace(".", repl)`: every `'.'` is replaced by `repl`
(used by `export_multiple` with `repl = "_{doc_id}."`). -/
def replaceDot (repl : Str) : Str → Str
  | [] => []
  | '.' :: rest => repl ++ replaceDot repl rest
  | c :: rest => c :: replaceDot repl rest

/-- Index of the last element satisfying `p`, or `none`. -/
def lastIdxP (p : Char → Bool) : List Char → Option Nat
  | [] => none
  | c :: cs =>
    match lastIdxP p cs with
    | some i => some (i + 1)
    | none => if p c then some 0 else none

/-- A path separator as recognised by `os.path.splitext` (`ntpath` uses both
`'\\'` and `'/'`; on the separator-free filenames this program feeds to
`splitext` the posix variant agrees). -/
def isSep (c : Char) : Bool :=
  c = '\\' || c = '/'

/-- `os.path.splitext`: split at the last `'.'` that lies after the last
separator, unless every character between them is a dot (so dotfiles such as
`".pdf"` have no extension). -/
def splitext (s : Str) : Str × Str :=
  match lastIdxP isSep s, lastIdxP (fun c => c = '.') s with
  | _, none => (s, [])
  | some si, some di =>
    if si < di then
      if ((s.drop (si + 1)).take (di - si - 1)).any (fun c => !(c = '.' : Bool)) then
        (s.take di, s.drop di)
      else (s, [])
    else (s, [])
  | none, some di =>
    if (s.take di).any (fun c => !(c = '.' : Bool)) then
      (s.take di, s.drop di)
    else (s, [])

/-- `os.path.join a b` for a relative second component, with `'/'` standing
for `os.sep`. -/
def pjoin (a b : Str) : Str :=
  a ++ '/' :: b

/-! ## Classifier (`document_mapping.py`) -/

/-- `get_all_categories` from `document_mapping.py`. -/
def get_all_categories : List Str :=
  [("_Permanent".data), ("Accounting & Payroll".data),
   ("Consulting & Special Projects".data), ("Other".data), ("Tax".data)]

/-- `get_document_category` from `document_mapping.py`: normalise each input
with `(x or "").strip().lower()` (`none` models Python `None`), then map
section `"bookkeeping"` to `"Accounting & Payroll"` and everything else to
`"Other"`.  The body performs no fallible operation, so the `except` arm that
would also return `"Other"` is dead code and the function is total. -/
def get_document_category (file_section document_type description : Option Str) : Str :=
  let fs := pyLower (stripWs (file_section.getD []))
  let _dt := pyLower (stripWs (document_type.getD []))
  let _ds := pyLower (stripWs (description.getD []))
  if fs = ("bookkeeping".data) then ("Accounting & Payroll".data)
  else if fs = ("clientflow".data) then ("Other".data)
  else ("Other".data)

/-! ## Document model (`models.py`) -/

/-- `Document.BE_DOWNLOAD_YEAR`. -/
def BE_DOWNLOAD_YEAR : Int := 2018

/-- `Document.is_downloadable`: empty year is downloadable; otherwise the year
must parse with `int()` and be at least `BE_DOWNLOAD_YEAR`; a `ValueError`
yields `False`. -/
def is_downloadable (year : Str) : Bool :=
  if year = [] then true
  else
    match pythonInt year with
    | some n => decide (BE_DOWNLOAD_YEAR ≤ n)
    | none => false

/-- The `name_items` list built in `Document._generate_document_name_without_id`:
each field is appended only when truthy (non-empty). -/
def nameItems (client_name year document_type description : Str) : List Str :=
  (if client_name ≠ [] then [client_name] else []) ++
  (if year ≠ [] then [year] else []) ++
  (if document_type ≠ [] then [document_type] else []) ++
  (if description ≠ [] then [description] else [])

/-- `self.file_type or "pdf"`. -/
def fileTypeOrPdf (file_type : Str) : Str :=
  if file_type = [] then ("pdf".data) else file_type

/-- `Document._generate_document_name_without_id`: join the non-empty fields
with `'_'`, delete special characters from the joined string, append
`.{file_type or "pdf"}`. -/
def generate_document_name_without_id
    (client_name year document_type description file_type : Str) : Str :=
  stripSpecial (joinUnderscore (nameItems client_name year document_type description)) ++
    '.' :: fileTypeOrPdf file_type

/-- `Document._generate_document_name_with_id`: `os.path.splitext` the name
without id and splice `_{document_id}` between base and extension. -/
def generate_document_name_with_id (name_without_id document_id : Str) : Str :=
  let p := splitext name_without_id
  p.1 ++ '_' :: document_id ++ p.2

/-- A `Document` object.  The `client_object` back-reference is modelled by
`clientFolderPath?`: `none` for Python `None`, otherwise the owning client's
`client_folder_path` at the moment of access (the only client attribute the
document reads). -/
structure Doc where
  document_id : Str
  file_section : Str
  document_type : Str
  description : Str
  year : Str
  document_date : Str
  file_size : Str
  file_type : Str
  client_name : Str
  clientFolderPath? : Option Str
  category_name : Str
  download_status : Str
  document_name_without_id : Str
  document_name_with_id : Str
  document_folder_path : Str
  document_file_path : Str
  downloadable : Bool
  file_exists : Bool
  deriving DecidableEq

/-- `Document.get_document_folder_path`. -/
def Doc.get_document_folder_path (d : Doc) : Str :=
  match d.clientFolderPath? with
  | none => []
  | some cfp =>
    if cfp = [] then []
    else
      let cat :=
        if d.category_name ≠ [] then d.category_name
        else get_document_category (some d.file_section) (some d.document_type)
          (some d.description)
      if cat = [] then []
      else if d.year ≠ [] ∧ stripWs d.year ≠ [] then
        pjoin (pjoin cfp cat) (stripWs d.year)
      else pjoin cfp cat

/-- `Document.check_file_exists`; `fs` is the filesystem oracle for
`os.path.exists(p) and os.path.isfile(p)`. -/
def Doc.check_file_exists (fs : Str → Bool) (d : Doc) : Bool :=
  if d.document_file_path = [] then false else fs d.document_file_path

/-- `Document.update_paths`: recompute folder path, file path and
`file_exists`. -/
def Doc.update_paths (fs : Str → Bool) (d : Doc) : Doc :=
  let folder := d.get_document_folder_path
  let file := if folder ≠ [] then pjoin folder d.document_name_with_id else []
  let d1 := { d with document_folder_path := folder, document_file_path := file }
  { d1 with file_exists := d1.check_file_exists fs }

/-- `Document.__init__`. -/
def mkDocument (fs : Str → Bool)
    (document_id file_section document_type description year document_date
      file_size file_type client_name : Str)
    (clientFolderPath? : Option Str) : Doc :=
  let category_name :=
    get_document_category (some file_section) (some document_type) (some description)
  let nwo := generate_document_name_without_id client_name year document_type
    description file_type
  let nwi := generate_document_name_with_id nwo document_id
  let d0 : Doc :=
    { document_id, file_section, document_type, description, year, document_date,
      file_size, file_type, client_name, clientFolderPath?, category_name,
      download_status := [], document_name_without_id := nwo,
      document_name_with_id := nwi, document_folder_path := [],
      document_file_path := [], downloadable := is_downloadable year,
      file_exists := false }
  let folder := d0.get_document_folder_path
  let file := if folder ≠ [] then pjoin folder nwi else []
  let d1 := { d0 with document_folder_path := folder, document_file_path := file }
  { d1 with file_exists := d1.check_file_exists fs }

/-! ## Client model (`models.py`) -/

/-- One `str.replace(c, "")` step. -/
def removeChar (c : Char) (s : Str) : Str :=
  s.filter (fun x => !(x = c : Bool))

/-- `Client._sanitize_folder_name`: the chain of nine `replace` calls. -/
def sanitize_folder_name (folder_name : Str) : Str :=
  if folder_name = [] then []
  else
    removeChar '|' (removeChar '>' (removeChar '<' (removeChar '"' (removeChar '?'
      (removeChar '*' (removeChar ':' (removeChar '\\' (removeChar '/' folder_name))))))))

structure Client where
  client_name : Str
  client_number : Str
  client_folder_name : Str
  client_folder_path : Str
  document_list : List Doc
  deriving DecidableEq

/-- `Client.__init__`. -/
def mkClient (client_name client_number : Str) : Client :=
  { client_name, client_number,
    client_folder_name := sanitize_folder_name (client_number ++ (" - ".data) ++ client_name),
    client_folder_path := [], document_list := [] }

/-- `Client.add_document`: scan for an existing document with the same
`document_id`; when none is found, append the document, bind its
`client_object` to this client and run `update_paths` on it. -/
def Client.add_document (fs : Str → Bool) (c : Client) (d : Doc) : Client :=
  if c.document_list.any (fun e => decide (e.document_id = d.document_id)) then c
  else
    let bound := { d with clientFolderPath? := some c.client_folder_path }
    { c with document_list := c.document_list ++ [bound.update_paths fs] }

/-- `Client.create_client_folder`; `mkOk` is the oracle for the
`os.makedirs` call.  On success `client_folder_path` is assigned; every
failure is wrapped in `FolderCreationError` (here `Except.error`) and leaves
the client unchanged. -/
def create_client_folder (baseDir : Str) (mkOk : Bool) (c : Client) :
    Except Unit (Client × Str) :=
  if baseDir = [] then .error ()
  else if c.client_folder_name = [] then .error ()
  else if mkOk then
    let p := pjoin baseDir c.client_folder_name
    .ok ({ c with client_folder_path := p }, p)
  else .error ()

/-- `Client.create_category_folders`; `rootExists` is the oracle for
`os.path.exists(self.client_folder_path)` and `mkOk` for the category
`os.makedirs` loop. -/
def create_category_folders (rootExists mkOk : Bool) (c : Client) : Except Unit Unit :=
  if c.client_folder_path = [] ∨ ¬rootExists then .error ()
  else if mkOk then .ok () else .error ()

/-- `Client.initialize_folders`: run both phases; on any
`FolderCreationError` reset `client_folder_path` to the empty string and
re-raise (the returned `Bool` is `true` when the error propagates). -/
def Client.initialize_folders (baseDir : Str) (rootMkOk rootExists catMkOk : Bool)
    (c : Client) : Client × Bool :=
  match create_client_folder baseDir rootMkOk c with
  | .error _ => ({ c with client_folder_path := [] }, true)
  | .ok (c1, _) =>
    match create_category_folders rootExists catMkOk c1 with
    | .error _ => ({ c1 with client_folder_path := [] }, true)
    | .ok _ => (c1, false)

/-! ## Orchestrator (`gofileroom_download.py`) -/

/-- `int(self.config.get('NUMBER_ITEMS_PER_PAGE', 50))`: the run-wide page
size, defaulting to 50 when the key is absent from `.env`. -/
def number_items_per_page (cfg : Option Nat) : Nat :=
  cfg.getD 50

/-- `total_pages = (total_documents + number_items_per_page - 1) // number_items_per_page`
from `export_multiple`. -/
def total_pages (total_documents n : Nat) : Nat :=
  (total_documents + n - 1) / n

inductive ExportRoute
  | noDocuments
  | single
  | multiple (pages : Nat)
  deriving DecidableEq

/-- The dispatch in `process_client`: zero documents fails early with
"Client has no document"; exactly one document calls `export_single` (no
page loop); otherwise `export_multiple` runs its loop over
`range(1, total_pages + 1)`. -/
def export_route (total_documents n : Nat) : ExportRoute :=
  if total_documents = 0 then .noDocuments
  else if total_documents = 1 then .single
  else .multiple (total_pages total_documents n)

/-- Per-document fields the orchestrator reads from `csv_documents_dict`
(values exactly as parsed from the CSV). -/
structure BulkDocInfo where
  doc_id : Str
  expected_download_file_name : Str
  year : Str
  file_section : Str
  document_type : Str
  description : Str
  deriving DecidableEq

/-- `expected_file_name.replace(".", f"_{doc_id}.")` from `export_multiple`. -/
def expectedNameWithId (expected_file_name doc_id : Str) : Str :=
  replaceDot ('_' :: doc_id ++ ['.']) expected_file_name

/-- The match test in the `export_multiple` zip scan:
`doc_id in file and expected_file_name.replace(".", f"_{doc_id}.") in file`. -/
def zip_file_matches (doc_id expected_file_name file : Str) : Bool :=
  isSubstr doc_id file && isSubstr (expectedNameWithId expected_file_name doc_id) file

inductive BulkOutcome
  | errorNoFile
  | errorYearFolder
  | successAlreadyExists (dest : Str)
  | moved (src dest : Str)
  | errorMove (src dest : Str)
  deriving DecidableEq

/-- Excel status written for a bulk outcome. -/
def BulkOutcome.status : BulkOutcome → Str
  | .errorNoFile => ("Error".data)
  | .errorYearFolder => ("Error".data)
  | .successAlreadyExists _ => ("Success".data)
  | .moved _ _ => ("Success".data)
  | .errorMove _ _ => ("Error".data)

/-- Post-zip handling of one document in `export_multiple`: find the first
extracted file that passes `zip_file_matches` (walk order), report `"Error"`
and move nothing when there is none; otherwise compute the category (and
year) destination whose basename is `expected_download_file_name` and move
the file there.  `yearMkOk`, `destExists`, `moveOk` are the filesystem
oracles for `_create_folder`, `os.path.exists(final_dest)` and
`shutil.move`. -/
def bulk_doc_outcome (clientTargetDir : Str) (info : BulkDocInfo)
    (zipFiles : List Str) (yearMkOk destExists moveOk : Bool) : BulkOutcome :=
  let expected := info.expected_download_file_name
  let doc_year := stripWs info.year
  match zipFiles.find? (fun f => zip_file_matches info.doc_id expected f) with
  | none => .errorNoFile
  | some found =>
    let category_folder := get_document_category (some (stripWs info.file_section))
      (some (stripWs info.document_type)) (some (stripWs info.description))
    let category_dir := pjoin clientTargetDir category_folder
    let final_dest :=
      if doc_year ≠ [] then pjoin (pjoin category_dir doc_year) expected
      else pjoin category_dir expected
    if doc_year ≠ [] ∧ ¬yearMkOk then .errorYearFolder
    else if destExists then .successAlreadyExists final_dest
    else if moveOk then .moved found final_dest
    else .errorMove found final_dest

/-- The `for doc_id, doc_info in csv_documents_dict.items()` loop: every
document is handled by `bulk_doc_outcome` independently (each iteration ends
in `continue`, so one document's failure never stops the others). -/
def bulk_process (clientTargetDir : Str) (infos : List BulkDocInfo)
    (zipFiles : List Str) (yearMkOk destExists moveOk : Bool) : List BulkOutcome :=
  infos.map (fun i => bulk_doc_outcome clientTargetDir i zipFiles yearMkOk destExists moveOk)

inductive IndOutcome
  | renamedMoved (newName dest : Str) (warned : Bool)
  | errorRename (warned : Bool)
  | errorMove (newName dest : Str) (warned : Bool)
  deriving DecidableEq

/-- Excel status finally written for an individual-export outcome. -/
def IndOutcome.status : IndOutcome → Str
  | .renamedMoved _ _ _ => ("Success".data)
  | .errorRename _ => ("Error".data)
  | .errorMove _ _ _ => ("Error".data)

/-- Whether an earlier `"Warning"` status was recorded for a name mismatch. -/
def IndOutcome.warned : IndOutcome → Bool
  | .renamedMoved _ _ w => w
  | .errorRename w => w
  | .errorMove _ _ w => w

/-- Post-download handling of one row in `export_page_individual_files`
(lines 1671-1732): compare the downloaded name with the expected name via
`os.path.splitext` pairs; a mismatch records `"Warning"` and the code keeps
going ("Vẫn tiếp tục move file"); the file is then renamed to
`{base}_{doc_id}{ext}` (base and ext of the *downloaded* name) and moved
into the category (or category/year) folder. -/
def individual_post (categoryDir docYear downloadedFileName expectedFileName doc_id : Str)
    (renameOk moveOk : Bool) : IndOutcome :=
  let p := splitext downloadedFileName
  let q := splitext expectedFileName
  let warned := decide (p.1 ≠ q.1 ∨ p.2 ≠ q.2)
  let new_file_name := p.1 ++ '_' :: doc_id ++ p.2
  if ¬renameOk then .errorRename warned
  else
    let final_dest :=
      if docYear ≠ [] then pjoin (pjoin categoryDir docYear) new_file_name
      else pjoin categoryDir new_file_name
    if moveOk then .renamedMoved new_file_name final_dest warned
    else .errorMove new_file_name final_dest warned

/-- One row of the individual-export page loop. -/
structure IndRowInput where
  downloadedFileName : Str
  info : BulkDocInfo
  renameOk : Bool
  moveOk : Bool
  deriving DecidableEq

/-- The `for i, row in enumerate(document_rows)` loop of
`export_page_individual_files`: rows are processed independently, every
failure path ends in `continue`. -/
def individual_page (clientTargetDir : Str) (rows : List IndRowInput) : List IndOutcome :=
  rows.map (fun r =>
    let category_folder := get_document_category (some (stripWs r.info.file_section))
      (some (stripWs r.info.document_type)) (some (stripWs r.info.description))
    individual_post (pjoin clientTargetDir category_folder) (stripWs r.info.year)
      r.downloadedFileName r.info.expected_download_file_name r.info.doc_id
      r.renameOk r.moveOk)

/-! ## Retry policy (`process_client` and `_is_web_error`) -/

/-- The keyword list of `_is_web_error`. -/
def web_error_keywords : List Str :=
  [("timeout".data), ("timed out".data), ("element not found".data),
   ("no such element".data), ("stale element".data),
   ("element is not attached".data), ("session not created".data),
   ("connection".data), ("network".data), ("webdriver".data), ("selenium".data)]

/-- `_is_web_error`: any keyword occurs in the lowercased message. -/
def is_web_error (error_msg : Str) : Bool :=
  web_error_keywords.any (fun k => isSubstr k (pyLower error_msg))

/-- What one iteration of the `process_client` body does: returns normally
(`success` / `failReturn` for `return True` / `return False` — a download
timeout inside `_wait_for_file_download` is reported this way, never as an
exception) or raises an exception with the given message. -/
inductive AttemptResult
  | success
  | failReturn
  | raised (msg : Str)
  deriving DecidableEq

/-- An attempt in which `_wait_for_file_download` times out (no file appeared
within the wait window): the helper returns `(False, None)`, the caller
records an error and `process_client` returns `False` — no exception is
raised. -/
def download_timeout_attempt : AttemptResult := .failReturn

/-- Default of the `max_retries` parameter of `process_client`. -/
def process_client_default_max_retries : Nat := 2

/-- The `while retry_count <= max_retries` loop of `process_client`, driven
by the oracle list of attempt results: a normal return ends the loop; a
raised exception is retried (after `_reload_page`) only while
`_is_web_error` holds and `retry_count < max_retries`, otherwise the method
returns `False` — the exception never propagates. -/
def process_client_loop (max_retries : Nat) (reloadOk : Bool) :
    Nat → List AttemptResult → Option Bool
  | _, [] => none
  | retry_count, a :: rest =>
    match a with
    | .success => some true
    | .failReturn => some false
    | .raised msg =>
      if is_web_error msg = true ∧ retry_count < max_retries then
        if reloadOk then process_client_loop max_retries reloadOk (retry_count + 1) rest
        else some false
      else some false

/-! ## Helper lemmas -/

theorem stripSpecial_append (a b : Str) :
    stripSpecial (a ++ b) = stripSpecial a ++ stripSpecial b :=
  List.filter_append a b

theorem stripSpecial_underscore_cons (s : Str) :
    stripSpecial ('_' :: s) = '_' :: stripSpecial s := by
  simp [stripSpecial, List.filter_cons, isSpecialChar]

theorem stripSpecial_joinUnderscore (L : List Str) :
    stripSpecial (joinUnderscore L) = joinUnderscore (L.map stripSpecial) := by
  induction L with
  | nil => rfl
  | cons x rest ih =>
    cases rest with
    | nil => rfl
    | cons y rest' =>
      show stripSpecial (x ++ '_' :: joinUnderscore (y :: rest')) = _
      rw [stripSpecial_append, stripSpecial_underscore_cons, ih]
      rfl

theorem lastIdxP_eq_none (p : Char → Bool) (l : List Char)
    (h : ∀ x ∈ l, p x = false) : lastIdxP p l = none := by
  induction l with
  | nil => rfl
  | cons c cs ih =>
    have hc := h c (by simp)
    have ih' := ih (fun x hx => h x (by simp [hx]))
    simp [lastIdxP, ih', hc]

theorem lastIdxP_append_some (p : Char → Bool) (xs ys : List Char) (k : Nat)
    (h : lastIdxP p ys = some k) :
    lastIdxP p (xs ++ ys) = some (xs.length + k) := by
  induction xs with
  | nil => simpa using h
  | cons c cs ih =>
    have hstep : lastIdxP p ((c :: cs) ++ ys) =
        match lastIdxP p (cs ++ ys) with
        | some i => some (i + 1)
        | none => if p c then some 0 else none := rfl
    rw [hstep, ih]
    simp only [List.length_cons]
    congr 1
    omega

theorem isSep_dot : isSep '.' = false := by decide

theorem splitext_append_ext (n ft : Str)
    (hn : ∃ c ∈ n, (c = '.' : Bool) = false)
    (hnsep : ∀ c ∈ n, isSep c = false)
    (hft : ∀ c ∈ ft, (c = '.' : Bool) = false ∧ isSep c = false) :
    splitext (n ++ '.' :: ft) = (n, '.' :: ft) := by
  have hsep : lastIdxP isSep (n ++ '.' :: ft) = none := by
    apply lastIdxP_eq_none
    intro x hx
    rcases List.mem_append.mp hx with h | h
    · exact hnsep x h
    · rcases List.mem_cons.mp h with rfl | h
      · exact isSep_dot
      · exact (hft x h).2
  have hdotft : lastIdxP (fun c => c = '.') ft = none :=
    lastIdxP_eq_none _ _ (fun x hx => (hft x hx).1)
  have hdot : lastIdxP (fun c => c = '.') (n ++ '.' :: ft) = some n.length := by
    have h0 : lastIdxP (fun c => c = '.') ('.' :: ft) = some 0 := by
      simp [lastIdxP, hdotft]
    simpa using lastIdxP_append_some _ n _ 0 h0
  have hany : ((n ++ '.' :: ft).take n.length).any (fun c => !(c = '.' : Bool)) = true := by
    rw [List.take_left n]
    rcases hn with ⟨c, hc, hcdot⟩
    exact List.any_eq_true.mpr ⟨c, hc, by simp [hcdot]⟩
  simp only [splitext, hsep, hdot, hany, if_true]
  rw [List.take_left n, List.drop_left n]

theorem splitext_fst_append_snd (s : Str) :
    (splitext s).1 ++ (splitext s).2 = s := by
  unfold splitext
  rcases h1 : lastIdxP isSep s with _ | si <;>
    rcases h2 : lastIdxP (fun c => c = '.') s with _ | di <;>
      simp only [h1, h2] <;>
      first
        | (split_ifs <;> simp [List.take_append_drop])
        | simp

theorem splitext_pair_eq_iff (a b : Str) : splitext a = splitext b ↔ a = b := by
  constructor
  · intro h
    have ha := splitext_fst_append_snd a
    have hb := splitext_fst_append_snd b
    rw [← ha, ← hb, h]
  · rintro rfl; rfl

theorem isSpecialChar_of_isSep (c : Char) (h : isSep c = true) :
    isSpecialChar c = true := by
  simp only [isSep, Bool.or_eq_true, decide_eq_true_eq] at h
  rcases h with rfl | rfl <;> decide

theorem stripSpecial_no_sep (s : Str) : ∀ c ∈ stripSpecial s, isSep c = false := by
  intro c hc
  have hmem := List.mem_filter.mp hc
  by_contra hne
  have hsep : isSep c = true := by revert hne; cases isSep c <;> simp
  have := isSpecialChar_of_isSep c hsep
  simp [this] at hmem

theorem isSpecialChar_of_ws (c : Char) (h : isWs c = true) :
    isSpecialChar c = false := by
  simp only [isWs, Bool.or_eq_true, decide_eq_true_eq] at h
  rcases h with ((((rfl | rfl) | rfl) | rfl) | rfl) | rfl <;> decide

theorem stripSpecial_of_ws (s : Str) (h : ∀ c ∈ s, isWs c = true) :
    stripSpecial s = s := by
  apply List.filter_eq_self.mpr
  intro c hc
  simp [isSpecialChar_of_ws c (h c hc)]

theorem stripWs_eq_nil (s : Str) (h : ∀ c ∈ s, isWs c = true) : stripWs s = [] := by
  unfold stripWs
  have h1 : s.dropWhile isWs = [] := List.dropWhile_eq_nil_iff.mpr h
  simp [h1]

theorem pythonInt_eq_none_of_stripWs_nil (s : Str) (h : stripWs s = []) :
    pythonInt s = none := by
  unfold pythonInt
  rw [h]
  rfl

theorem joinUnderscore_infix_of_mem (y : Str) (L : List Str) (h : y ∈ L) :
    ∃ s t, s ++ y ++ t = joinUnderscore L := by
  induction L with
  | nil => cases h
  | cons x rest ih =>
    rcases List.mem_cons.mp h with rfl | h'
    · cases rest with
      | nil => exact ⟨[], [], by simp [joinUnderscore]⟩
      | cons z rest' => exact ⟨[], '_' :: joinUnderscore (z :: rest'), by simp [joinUnderscore]⟩
    · rcases ih h' with ⟨s, t, hst⟩
      cases rest with
      | nil => cases h'
      | cons z rest' =>
        refine ⟨x ++ '_' :: s, t, ?_⟩
        show (x ++ '_' :: s) ++ y ++ t = x ++ '_' :: joinUnderscore (z :: rest')
        rw [← hst]
        simp

theorem Doc.get_document_folder_path_no_year (d : Doc) (cfp : Str)
    (hc : d.clientFolderPath? = some cfp) (hcfp : cfp ≠ [])
    (hcat : d.category_name ≠ []) (hyr : stripWs d.year = []) :
    d.get_document_folder_path = pjoin cfp d.category_name := by
  unfold Doc.get_document_folder_path
  rw [hc]
  simp [hcfp, hcat, hyr]

theorem get_document_category_mem (a b c : Option Str) :
    get_document_category a b c ∈ get_all_categories := by
  unfold get_document_category get_all_categories
  dsimp only
  split_ifs <;> simp

theorem get_document_category_ne_nil (a b c : Option Str) :
    get_document_category a b c ≠ [] := by
  unfold get_document_category
  dsimp only
  split_ifs <;> decide

/-! ## Claim theorems -/

/-- C2: `Document.is_downloadable` is `True` iff the year string is empty or
parses with `int()` to an integer `≥ 2018`; a non-empty year that does not
parse yields `False`; in particular `"2018"` is downloadable, `"2017"` and
`"abc"` are not, and `""` is. -/
theorem C2_is_downloadable_characterization :
    (∀ year : Str, is_downloadable year = true ↔
      (year = [] ∨ ∃ n : Int, pythonInt year = some n ∧ (2018 : Int) ≤ n))
    ∧ is_downloadable ("2018".data) = true
    ∧ is_downloadable ("2017".data) = false
    ∧ is_downloadable [] = true
    ∧ is_downloadable ("abc".data) = false := by
  refine ⟨?_, by decide, by decide, by decide, by decide⟩
  intro year
  unfold is_downloadable
  by_cases hy : year = []
  · simp [hy]
  · simp only [hy, if_false]
    rcases hp : pythonInt year with _ | n
    · simp [hp, hy]
    · simp [hp, hy, BE_DOWNLOAD_YEAR]

/-- C3: the classifier is total — for every combination of inputs (including
Python `None`, modelled by `none`) it returns one of the five categories —
and after trim+lowercase normalisation section `"bookkeeping"` maps to
`"Accounting & Payroll"` while every other section (including
`"clientflow"`) maps to `"Other"`.  The Lean model is a total function, so
"never raises" holds by construction (the Python body performs no fallible
operation). -/
theorem C3_classifier_total :
    (∀ fs dt ds : Option Str, get_document_category fs dt ds ∈ get_all_categories)
    ∧ (∀ fs dt ds : Option Str,
        get_document_category fs dt ds =
          if pyLower (stripWs (fs.getD [])) = ("bookkeeping".data)
          then ("Accounting & Payroll".data) else ("Other".data))
    ∧ get_document_category none none none = ("Other".data)
    ∧ get_document_category (some ("clientflow".data)) none none = ("Other".data)
    ∧ get_document_category (some (" BookKeeping ".data)) none none =
        ("Accounting & Payroll".data) := by
  refine ⟨fun fs dt ds => get_document_category_mem fs dt ds, ?_, by decide, by decide, by decide⟩
  intro fs dt ds
  unfold get_document_category
  dsimp only
  split_ifs <;> rfl

/-- C10: a non-empty, all-whitespace year is not downloadable (non-empty but
`int()` rejects it), yet `get_document_folder_path` treats it as absent
(`self.year.strip()` is falsy) and returns the category folder with no year
subfolder, while `_generate_document_name_without_id` still includes the
whitespace year as a joined component of the canonical filename. -/
theorem C10_whitespace_year (fs : Str → Bool)
    (document_id file_section document_type description year document_date
      file_size file_type client_name cfp : Str)
    (hy : year ≠ []) (hws : ∀ c ∈ year, isWs c = true) (hcfp : cfp ≠ []) :
    is_downloadable year = false
    ∧ (mkDocument fs document_id file_section document_type description year
        document_date file_size file_type client_name (some cfp)).downloadable = false
    ∧ (mkDocument fs document_id file_section document_type description year
        document_date file_size file_type client_name (some cfp)).document_folder_path =
      pjoin cfp (get_document_category (some file_section) (some document_type)
        (some description))
    ∧ ∃ s t, s ++ year ++ t =
        (mkDocument fs document_id file_section document_type description year
          document_date file_size file_type client_name (some cfp)).document_name_without_id := by
  have hstrip : stripWs year = [] := stripWs_eq_nil year hws
  have hdl : is_downloadable year = false := by
    unfold is_downloadable
    rw [if_neg hy, pythonInt_eq_none_of_stripWs_nil year hstrip]
  have hdownload : (mkDocument fs document_id file_section document_type description year
      document_date file_size file_type client_name (some cfp)).downloadable =
      is_downloadable year := rfl
  have hnwo : (mkDocument fs document_id file_section document_type description year
      document_date file_size file_type client_name (some cfp)).document_name_without_id =
      generate_document_name_without_id client_name year document_type description
        file_type := rfl
  refine ⟨hdl, hdownload.trans hdl, ?_, ?_⟩
  · have hfold : (mkDocument fs document_id file_section document_type description year
        document_date file_size file_type client_name (some cfp)).document_folder_path =
        (mkDocument fs document_id file_section document_type description year
          document_date file_size file_type client_name (some cfp)).get_document_folder_path :=
      rfl
    rw [hfold]
    exact Doc.get_document_folder_path_no_year _ cfp rfl hcfp
      (get_document_category_ne_nil (some file_section) (some document_type)
        (some description)) hstrip
  · rw [hnwo]
    unfold generate_document_name_without_id
    have hmem : year ∈ nameItems client_name year document_type description := by
      unfold nameItems
      simp [hy]
    have hmem' : year ∈ (nameItems client_name year document_type description).map
        stripSpecial := by
      have := List.mem_map_of_mem stripSpecial hmem
      rwa [stripSpecial_of_ws year hws] at this
    rcases joinUnderscore_infix_of_mem year _ hmem' with ⟨s, t, hst⟩
    refine ⟨s, t ++ '.' :: fileTypeOrPdf file_type, ?_⟩
    rw [stripSpecial_joinUnderscore, ← hst]
    simp

/-- Witness for C10 at year `" "`. -/
theorem C10_whitespace_year_witness :
    is_downloadable (" ".data) = false
    ∧ (mkDocument (fun _ => false) ("7".data) ("Bookkeeping".data) ("T".data) ("D".data)
        (" ".data) [] [] [] ("Acme".data) (some ("base/c".data))).downloadable = false
    ∧ (mkDocument (fun _ => false) ("7".data) ("Bookkeeping".data) ("T".data) ("D".data)
        (" ".data) [] [] [] ("Acme".data) (some ("base/c".data))).document_folder_path =
      pjoin ("base/c".data) (get_document_category (some ("Bookkeeping".data))
        (some ("T".data)) (some ("D".data)))
    ∧ ∃ s t, s ++ (" ".data) ++ t =
        (mkDocument (fun _ => false) ("7".data) ("Bookkeeping".data) ("T".data) ("D".data)
          (" ".data) [] [] [] ("Acme".data) (some ("base/c".data))).document_name_without_id :=
  C10_whitespace_year (fun _ => false) ("7".data) ("Bookkeeping".data) ("T".data)
    ("D".data) (" ".data) [] [] [] ("Acme".data) ("base/c".data)
    (by decide) (by decide) (by decide)

/-- C1 counterexample: with every name component empty (and `file_type` empty,
so the default `"pdf"` is used) and `document_id = "123"`, the without-id name
is `".pdf"`; `os.path.splitext(".pdf")` treats the whole name as a dotfile
base with empty extension, so `_generate_document_name_with_id` produces
`".pdf_123"` — the id lands *after* `".pdf"`, not before the extension as the
claim asserts for "every combination of input strings, including when all
name components are empty" (that insertion would give `"_123.pdf"`). -/
theorem C1_counterexample :
    (mkDocument (fun _ => false) ("123".data) [] [] [] [] [] [] [] []
      none).document_name_without_id = (".pdf".data)
    ∧ (mkDocument (fun _ => false) ("123".data) [] [] [] [] [] [] [] []
        none).document_name_with_id = (".pdf_123".data)
    ∧ (".pdf_123".data) ≠ ("_123.pdf".data) :=
  ⟨by decide, by decide, by decide⟩

/-- C1 (amended): provided the file type in use (`file_type or "pdf"`) contains
no dot and no path separator, and the sanitized joined name contains at least
one non-dot character, the derived names satisfy the claimed invariant: the
without-id name is the underscore-join of the components (specials stripped;
stripping before or after the join is the same because `'_'` is never
stripped) followed by the `.{file_type or "pdf"}` extension, and the with-id
name is that name with `_{document_id}` inserted immediately before the
extension.  Without those provisos the invariant fails (see the
counterexample, where the joined name is empty). -/
theorem C1_canonical_names (fs : Str → Bool)
    (document_id file_section document_type description year document_date
      file_size file_type client_name : Str) (cfp? : Option Str)
    (hft : ∀ c ∈ fileTypeOrPdf file_type, (c = '.' : Bool) = false ∧ isSep c = false)
    (hbase : ∃ c ∈ stripSpecial (joinUnderscore
        (nameItems client_name year document_type description)),
        (c = '.' : Bool) = false) :
    (mkDocument fs document_id file_section document_type description year
      document_date file_size file_type client_name cfp?).document_name_without_id =
      joinUnderscore ((nameItems client_name year document_type description).map
        stripSpecial) ++ '.' :: fileTypeOrPdf file_type
    ∧ (mkDocument fs document_id file_section document_type description year
        document_date file_size file_type client_name cfp?).document_name_with_id =
      joinUnderscore ((nameItems client_name year document_type description).map
        stripSpecial) ++ '_' :: document_id ++ '.' :: fileTypeOrPdf file_type := by
  have h1 : (mkDocument fs document_id file_section document_type description year
      document_date file_size file_type client_name cfp?).document_name_without_id =
      stripSpecial (joinUnderscore (nameItems client_name year document_type
        description)) ++ '.' :: fileTypeOrPdf file_type := rfl
  have hsplit : splitext (stripSpecial (joinUnderscore (nameItems client_name year
      document_type description)) ++ '.' :: fileTypeOrPdf file_type) =
      (stripSpecial (joinUnderscore (nameItems client_name year document_type
        description)), '.' :: fileTypeOrPdf file_type) :=
    splitext_append_ext _ _ hbase (stripSpecial_no_sep _) hft
  have h2 : (mkDocument fs document_id file_section document_type description year
      document_date file_size file_type client_name cfp?).document_name_with_id =
      generate_document_name_with_id (stripSpecial (joinUnderscore (nameItems
        client_name year document_type description)) ++ '.' :: fileTypeOrPdf file_type)
        document_id := rfl
  constructor
  · rw [h1, stripSpecial_joinUnderscore]
  · rw [h2]
    unfold generate_document_name_with_id
    rw [hsplit, stripSpecial_joinUnderscore]

/-- Witness for the amended C1 at a representative document. -/
theorem C1_canonical_names_witness :
    (mkDocument (fun _ => false) ("99".data) ("Bookkeeping".data) ("Inv*oice".data)
      ("Q?1".data) ("2020".data) [] [] [] ("A/cme".data)
      none).document_name_without_id =
      joinUnderscore ((nameItems ("A/cme".data) ("2020".data) ("Inv*oice".data)
        ("Q?1".data)).map stripSpecial) ++ '.' :: fileTypeOrPdf []
    ∧ (mkDocument (fun _ => false) ("99".data) ("Bookkeeping".data) ("Inv*oice".data)
        ("Q?1".data) ("2020".data) [] [] [] ("A/cme".data)
        none).document_name_with_id =
      joinUnderscore ((nameItems ("A/cme".data) ("2020".data) ("Inv*oice".data)
        ("Q?1".data)).map stripSpecial) ++ '_' :: ("99".data) ++ '.' :: fileTypeOrPdf [] :=
  C1_canonical_names (fun _ => false) ("99".data) ("Bookkeeping".data) ("Inv*oice".data)
    ("Q?1".data) ("2020".data) [] [] [] ("A/cme".data) none (by decide) (by decide)

theorem add_document_of_dup (fs : Str → Bool) (c : Client) (d : Doc)
    (h : (c.document_list.any fun e => decide (e.document_id = d.document_id)) = true) :
    Client.add_document fs c d = c := by
  unfold Client.add_document
  simp [h]

/-- C4: inserting two documents with the same `document_id` into a client
stores exactly one document — the first — at the end of the ordered
collection; the second insert is a no-op (the client is unchanged, so no
update happens); the stored document is the first one with its
`client_object` bound to this client and `update_paths` applied. -/
theorem C4_add_document_idempotent (fs : Str → Bool) (c : Client) (d1 d2 : Doc)
    (hid : d2.document_id = d1.document_id)
    (hnew : ∀ e ∈ c.document_list, e.document_id ≠ d1.document_id) :
    Client.add_document fs (Client.add_document fs c d1) d2 = Client.add_document fs c d1
    ∧ (Client.add_document fs c d1).document_list =
        c.document_list ++
          [Doc.update_paths fs { d1 with clientFolderPath? := some c.client_folder_path }]
    ∧ ((Client.add_document fs (Client.add_document fs c d1) d2).document_list.countP
        fun e => decide (e.document_id = d1.document_id)) = 1 := by
  have hany : (c.document_list.any fun e => decide (e.document_id = d1.document_id)) =
      false := by
    simp only [List.any_eq_false, decide_eq_true_eq]
    exact hnew
  have hfirst : (Client.add_document fs c d1).document_list =
      c.document_list ++
        [Doc.update_paths fs { d1 with clientFolderPath? := some c.client_folder_path }] := by
    unfold Client.add_document
    simp [hany]
  have hD : (Doc.update_paths fs
      { d1 with clientFolderPath? := some c.client_folder_path }).document_id =
      d1.document_id := rfl
  have hany2 : ((Client.add_document fs c d1).document_list.any fun e =>
      decide (e.document_id = d2.document_id)) = true := by
    rw [hfirst, List.any_append]
    simp [hD, hid]
  have hsecond := add_document_of_dup fs (Client.add_document fs c d1) d2 hany2
  refine ⟨hsecond, hfirst, ?_⟩
  rw [hsecond, hfirst, List.countP_append]
  have hcount0 : (c.document_list.countP fun e =>
      decide (e.document_id = d1.document_id)) = 0 := by
    simp only [List.countP_eq_zero, decide_eq_true_eq]
    exact hnew
  simp [hcount0, List.countP_cons, hD]

/-- Witness for C4: two documents sharing id `"7"` inserted into a fresh
client. -/
theorem C4_add_document_idempotent_witness :
    Client.add_document (fun _ => false)
        (Client.add_document (fun _ => false) (mkClient ("Acme".data) ("001".data))
          (mkDocument (fun _ => false) ("7".data) [] [] ("a".data) [] [] [] [] [] none))
        (mkDocument (fun _ => false) ("7".data) [] [] ("b".data) [] [] [] [] [] none) =
      Client.add_document (fun _ => false) (mkClient ("Acme".data) ("001".data))
        (mkDocument (fun _ => false) ("7".data) [] [] ("a".data) [] [] [] [] [] none)
    ∧ (Client.add_document (fun _ => false) (mkClient ("Acme".data) ("001".data))
        (mkDocument (fun _ => false) ("7".data) [] [] ("a".data) [] [] [] [] []
          none)).document_list =
      (mkClient ("Acme".data) ("001".data)).document_list ++
        [Doc.update_paths (fun _ => false)
          { mkDocument (fun _ => false) ("7".data) [] [] ("a".data) [] [] [] [] [] none with
            clientFolderPath? :=
              some (mkClient ("Acme".data) ("001".data)).client_folder_path }]
    ∧ ((Client.add_document (fun _ => false)
          (Client.add_document (fun _ => false) (mkClient ("Acme".data) ("001".data))
            (mkDocument (fun _ => false) ("7".data) [] [] ("a".data) [] [] [] [] [] none))
          (mkDocument (fun _ => false) ("7".data) [] [] ("b".data) [] [] [] [] []
            none)).document_list.countP
        fun e => decide (e.document_id =
          (mkDocument (fun _ => false) ("7".data) [] [] ("a".data) [] [] [] [] []
            none).document_id)) = 1 :=
  C4_add_document_idempotent (fun _ => false) (mkClient ("Acme".data) ("001".data))
    (mkDocument (fun _ => false) ("7".data) [] [] ("a".data) [] [] [] [] [] none)
    (mkDocument (fun _ => false) ("7".data) [] [] ("b".data) [] [] [] [] [] none)
    (by decide) (by decide)

/-- C5: `initialize_folders` is all-or-nothing for `client_folder_path`: after
the call the path is non-empty exactly when the base directory and folder
name were valid, the client-folder `makedirs` succeeded, the created root was
observed to exist and the category-folder loop succeeded; and a
`FolderCreationError` escapes exactly when the path ends up empty (in
particular a category failure after a successful root creation resets the
path to empty). -/
theorem C5_initialize_folders_atomic (baseDir : Str) (rootMkOk rootExists catMkOk : Bool)
    (c : Client) :
    ((c.initialize_folders baseDir rootMkOk rootExists catMkOk).1.client_folder_path ≠ []
      ↔ (baseDir ≠ [] ∧ c.client_folder_name ≠ [] ∧ rootMkOk = true ∧
          rootExists = true ∧ catMkOk = true))
    ∧ ((c.initialize_folders baseDir rootMkOk rootExists catMkOk).2 = true ↔
        (c.initialize_folders baseDir rootMkOk rootExists catMkOk).1.client_folder_path
          = []) := by
  unfold Client.initialize_folders create_client_folder create_category_folders
  by_cases hb : baseDir = [] <;> by_cases hn : c.client_folder_name = [] <;>
    cases rootMkOk <;> cases rootExists <;> cases catMkOk <;>
      simp [hb, hn, pjoin]

theorem total_pages_eq_ceil (t n : Nat) (hn : 0 < n) :
    (total_pages t n : ℤ) = Int.ceil ((t : ℚ) / (n : ℚ)) := by
  have hn' : (0 : ℚ) < (n : ℚ) := by exact_mod_cast hn
  have hdm := Nat.div_add_mod (t + n - 1) n
  have hmod := Nat.mod_lt (t + n - 1) hn
  have h3 : t ≤ n * total_pages t n := by
    have h : t ≤ n * ((t + n - 1) / n) := by omega
    exact h
  have h4 : n * total_pages t n < t + n := by
    have h : n * ((t + n - 1) / n) < t + n := by omega
    exact h
  have h3' : (t : ℚ) ≤ (n : ℚ) * (total_pages t n : ℚ) := by exact_mod_cast h3
  have h4' : (n : ℚ) * (total_pages t n : ℚ) < (t : ℚ) + (n : ℚ) := by exact_mod_cast h4
  symm
  rw [Int.ceil_eq_iff]
  constructor
  · rw [lt_div_iff₀ hn']
    push_cast
    nlinarith [h4']
  · rw [div_le_iff₀ hn']
    push_cast
    nlinarith [h3']

/-- C6: `export_multiple` computes
`total_pages = (total + items_per_page - 1) // items_per_page`, which is the
ceiling of `total / items_per_page` (for a positive page size); the page size
comes from the run-wide config key `NUMBER_ITEMS_PER_PAGE` with default 50,
so 120 documents give 3 pages; and `process_client` routes a client with
exactly one document to `export_single` (no page loop) while two or more
documents go to `export_multiple` with its `total_pages` loop. -/
theorem C6_pagination :
    (∀ t n : Nat, 0 < n → (total_pages t n : ℤ) = Int.ceil ((t : ℚ) / (n : ℚ)))
    ∧ number_items_per_page none = 50
    ∧ total_pages 120 (number_items_per_page none) = 3
    ∧ (∀ n : Nat, export_route 1 n = ExportRoute.single)
    ∧ (∀ t n : Nat, 2 ≤ t → export_route t n = ExportRoute.multiple (total_pages t n)) := by
  refine ⟨total_pages_eq_ceil, rfl, by decide, ?_, ?_⟩
  · intro n
    simp [export_route]
  · intro t n ht
    have h0 : ¬(t = 0) := by omega
    have h1 : ¬(t = 1) := by omega
    simp [export_route, h0, h1]

/-- Witness for C6 at 7 documents and page size 3. -/
theorem C6_pagination_witness :
    (total_pages 7 3 : ℤ) = Int.ceil (((7 : Nat) : ℚ) / ((3 : Nat) : ℚ))
    ∧ export_route 7 3 = ExportRoute.multiple (total_pages 7 3) :=
  ⟨C6_pagination.1 7 3 (by decide), C6_pagination.2.2.2.2 7 3 (by decide)⟩

/-- C7 counterexample: the claim says an extracted file is matched and moved
exactly when its name equals the document's `canonical_name_with_id`
case-insensitively.  `"ACME_2020_99.PDF"` equals the with-id name
`"Acme_2020_99.pdf"` case-insensitively, yet `export_multiple`'s actual test
(`doc_id in file and expected.replace(".", "_{id}.") in file`) is
case-sensitive substring containment, so no file matches: the document is
recorded `"Error"` and the file is left unmoved — the opposite of what the
claim predicts at this input. -/
theorem C7_counterexample :
    pyLower ("ACME_2020_99.PDF".data) =
      pyLower (generate_document_name_with_id ("Acme_2020.pdf".data) ("99".data))
    ∧ bulk_doc_outcome ("C".data)
        { doc_id := ("99".data), expected_download_file_name := ("Acme_2020.pdf".data),
          year := [], file_section := ("Bookkeeping".data), document_type := [],
          description := [] }
        [("ACME_2020_99.PDF".data)] true false true = BulkOutcome.errorNoFile
    ∧ BulkOutcome.errorNoFile.status = ("Error".data) :=
  ⟨by decide, by decide, by decide⟩

/-- C7 (amended): in bulk post-processing a file is matched to a document by
case-sensitive substring containment — the `document_id` must occur in the
filename and so must `expected_download_file_name` with every `'.'` replaced
by `"_{doc_id}."` (not by case-insensitive equality with
`canonical_name_with_id`); when no extracted file matches, the document is
recorded `"Error"` and nothing is moved; when one matches (first in walk
order) it is moved to a destination whose basename is the expected name
*without* the id (so the file is effectively renamed, contrary to the
original "no renaming" wording); and the documents of a page are processed
independently, so an error on one leaves its siblings' outcomes unchanged. -/
theorem C7_bulk_matching (clientTargetDir : Str) (info : BulkDocInfo)
    (zipFiles : List Str) (yearMkOk destExists moveOk : Bool) :
    (bulk_doc_outcome clientTargetDir info zipFiles yearMkOk destExists moveOk =
        BulkOutcome.errorNoFile ↔
      ∀ f ∈ zipFiles, zip_file_matches info.doc_id info.expected_download_file_name f
        = false)
    ∧ (∀ f, zipFiles.find? (fun g => zip_file_matches info.doc_id
          info.expected_download_file_name g) = some f →
        stripWs info.year = [] → destExists = false → moveOk = true →
        bulk_doc_outcome clientTargetDir info zipFiles yearMkOk destExists moveOk =
          BulkOutcome.moved f (pjoin (pjoin clientTargetDir
            (get_document_category (some (stripWs info.file_section))
              (some (stripWs info.document_type)) (some (stripWs info.description))))
            info.expected_download_file_name))
    ∧ ∀ (infos1 infos2 : List BulkDocInfo) (mid : BulkDocInfo),
        bulk_process clientTargetDir (infos1 ++ mid :: infos2) zipFiles yearMkOk
            destExists moveOk =
          bulk_process clientTargetDir infos1 zipFiles yearMkOk destExists moveOk ++
            bulk_doc_outcome clientTargetDir mid zipFiles yearMkOk destExists moveOk ::
              bulk_process clientTargetDir infos2 zipFiles yearMkOk destExists moveOk := by
  refine ⟨?_, ?_, ?_⟩
  · unfold bulk_doc_outcome
    rcases hfind : zipFiles.find? (fun g => zip_file_matches info.doc_id
        info.expected_download_file_name g) with _ | f
    · simp only [hfind]
      constructor
      · intro _ f hf
        have h := List.find?_eq_none.mp hfind f hf
        simpa using h
      · intro _
        trivial
    · simp only [hfind]
      have hp := List.find?_some hfind
      have hmem := List.mem_of_find?_eq_some hfind
      constructor
      · intro hcontra
        exfalso
        revert hcontra
        split_ifs <;> simp
      · intro hall
        rw [hall f hmem] at hp
        cases hp
  · intro f hfind hyr hde hmv
    unfold bulk_doc_outcome
    dsimp only
    rw [hfind]
    subst hde
    subst hmv
    simp [hyr]
  · intro infos1 infos2 mid
    simp [bulk_process]

/-- Witness for the amended C7: a correctly named extracted file is matched
and moved to the id-less destination. -/
theorem C7_bulk_matching_witness :
    bulk_doc_outcome ("C".data)
        { doc_id := ("99".data), expected_download_file_name := ("Acme_2020.pdf".data),
          year := [], file_section := ("Bookkeeping".data), document_type := [],
          description := [] }
        [("Acme_2020_99.pdf".data)] true false true =
      BulkOutcome.moved ("Acme_2020_99.pdf".data)
        (pjoin (pjoin ("C".data)
          (get_document_category (some (stripWs ("Bookkeeping".data)))
            (some (stripWs [])) (some (stripWs []))))
          ("Acme_2020.pdf".data)) :=
  (C7_bulk_matching ("C".data)
      { doc_id := ("99".data), expected_download_file_name := ("Acme_2020.pdf".data),
        year := [], file_section := ("Bookkeeping".data), document_type := [],
        description := [] }
      [("Acme_2020_99.pdf".data)] true false true).2.1
    ("Acme_2020_99.pdf".data) (by decide) (by decide) rfl rfl

/-- C8 counterexample: the claim says a downloaded file whose name does not
equal `canonical_name_without_id` is recorded `"Error"`, deleted, and that
document aborted.  In `export_page_individual_files` a mismatch
(`"other.pdf"` vs expected `"Acme_2020.pdf"`) records only `"Warning"`
(`warned = true`), the file is *not* deleted, and processing continues: the
file is renamed to `"other_99.pdf"` and moved, ending in status
`"Success"`. -/
theorem C8_counterexample :
    individual_post ("C".data) [] ("other.pdf".data) ("Acme_2020.pdf".data) ("99".data)
        true true =
      IndOutcome.renamedMoved ("other_99.pdf".data)
        (pjoin ("C".data) ("other_99.pdf".data)) true
    ∧ ("other.pdf".data) ≠ ("Acme_2020.pdf".data)
    ∧ (individual_post ("C".data) [] ("other.pdf".data) ("Acme_2020.pdf".data) ("99".data)
        true true).status = ("Success".data) :=
  ⟨by decide, by decide, by decide⟩

/-- C8 (amended): in individual-export post-processing the downloaded name is
compared with the expected name case-sensitively (via `os.path.splitext`
pairs, which is exact name equality); a mismatch records `"Warning"` — not
`"Error"` — the stray file is not deleted and the document is not aborted:
mismatched or not, the file is renamed to insert the document id (into the
*downloaded* name) and moved to the category/year destination; rows of a
page are processed independently. -/
theorem C8_individual_mismatch (categoryDir docYear downloadedFileName expectedFileName
    doc_id : Str) (renameOk moveOk : Bool) :
    ((individual_post categoryDir docYear downloadedFileName expectedFileName doc_id
        renameOk moveOk).warned = true ↔ downloadedFileName ≠ expectedFileName)
    ∧ individual_post categoryDir docYear downloadedFileName expectedFileName doc_id
        true true =
      IndOutcome.renamedMoved
        ((splitext downloadedFileName).1 ++ '_' :: doc_id ++
          (splitext downloadedFileName).2)
        (if docYear ≠ [] then
          pjoin (pjoin categoryDir docYear)
            ((splitext downloadedFileName).1 ++ '_' :: doc_id ++
              (splitext downloadedFileName).2)
         else
          pjoin categoryDir
            ((splitext downloadedFileName).1 ++ '_' :: doc_id ++
              (splitext downloadedFileName).2))
        (decide (downloadedFileName ≠ expectedFileName))
    ∧ ∀ (rows1 rows2 : List IndRowInput) (mid : IndRowInput) (dir : Str),
        individual_page dir (rows1 ++ mid :: rows2) =
          individual_page dir rows1 ++
            individual_post
              (pjoin dir (get_document_category (some (stripWs mid.info.file_section))
                (some (stripWs mid.info.document_type))
                (some (stripWs mid.info.description))))
              (stripWs mid.info.year) mid.downloadedFileName
              mid.info.expected_download_file_name mid.info.doc_id
              mid.renameOk mid.moveOk ::
              individual_page dir rows2 := by
  have hpair : ((splitext downloadedFileName).1 = (splitext expectedFileName).1 ∧
      (splitext downloadedFileName).2 = (splitext expectedFileName).2) ↔
      downloadedFileName = expectedFileName :=
    (Prod.ext_iff).symm.trans (splitext_pair_eq_iff _ _)
  have hdec : decide ((splitext downloadedFileName).1 ≠ (splitext expectedFileName).1 ∨
      (splitext downloadedFileName).2 ≠ (splitext expectedFileName).2) =
      decide (downloadedFileName ≠ expectedFileName) := by
    apply decide_eq_decide.mpr
    rw [← not_and_or, hpair]
  refine ⟨?_, ?_, ?_⟩
  · have hwarn : (individual_post categoryDir docYear downloadedFileName expectedFileName
        doc_id renameOk moveOk).warned =
        decide ((splitext downloadedFileName).1 ≠ (splitext expectedFileName).1 ∨
          (splitext downloadedFileName).2 ≠ (splitext expectedFileName).2) := by
      unfold individual_post
      cases renameOk <;> cases moveOk <;> simp [IndOutcome.warned]
    rw [hwarn, hdec]
    simp
  · unfold individual_post
    simp [hdec]
  · intro rows1 rows2 mid dir
    simp [individual_page]

/-- C9 counterexample: the claim says only a download-timeout is retried and
every other exception class propagates without retry.  In the code, an
exception whose message mentions a stale element — not a download timeout —
satisfies `_is_web_error`, so `process_client` reloads and retries it (the
second attempt here succeeds), while an actual download timeout is reported
by `_wait_for_file_download` as a `(False, None)` return value, so
`process_client` returns `False` at once with no second attempt; exceptions
are caught, never propagated. -/
theorem C9_counterexample :
    is_web_error ("stale element reference".data) = true
    ∧ isSubstr ("timeout".data) (pyLower ("stale element reference".data)) = false
    ∧ isSubstr ("timed out".data) (pyLower ("stale element reference".data)) = false
    ∧ process_client_loop 2 true 0
        [AttemptResult.raised ("stale element reference".data), AttemptResult.success] =
      some true
    ∧ process_client_loop 2 true 0 [download_timeout_attempt, AttemptResult.success] =
      some false :=
  ⟨by decide, by decide, by decide, by decide, by decide⟩

theorem process_client_loop_raised_step (mr rc : Nat) (msg : Str)
    (L : List AttemptResult) :
    process_client_loop mr true rc (AttemptResult.raised msg :: L) =
      if is_web_error msg = true ∧ rc < mr then process_client_loop mr true (rc + 1) L
      else some false := rfl

theorem process_client_loop_replicate_success (mr : Nat) (msg : Str)
    (hweb : is_web_error msg = true) :
    ∀ k rc, rc + k ≤ mr →
      process_client_loop mr true rc
        (List.replicate k (AttemptResult.raised msg) ++ [AttemptResult.success]) =
      some true := by
  intro k
  induction k with
  | zero => intro rc _; rfl
  | succ k ih =>
    intro rc h
    have hlt : rc < mr := by omega
    rw [List.replicate_succ, List.cons_append, process_client_loop_raised_step,
      if_pos ⟨hweb, hlt⟩]
    exact ih (rc + 1) (by omega)

theorem process_client_loop_exhausted (mr : Nat) (msg : Str)
    (hweb : is_web_error msg = true) :
    ∀ k rc, mr ≤ rc + k →
      process_client_loop mr true rc
        (List.replicate (k + 1) (AttemptResult.raised msg)) = some false := by
  intro k
  induction k with
  | zero =>
    intro rc h
    have hnlt : ¬(is_web_error msg = true ∧ rc < mr) := fun hc => by omega
    rw [List.replicate_succ, List.replicate_zero, process_client_loop_raised_step,
      if_neg hnlt]
  | succ k ih =>
    intro rc h
    by_cases hlt : rc < mr
    · rw [List.replicate_succ, process_client_loop_raised_step, if_pos ⟨hweb, hlt⟩]
      exact ih (rc + 1) (by omega)
    · rw [List.replicate_succ, process_client_loop_raised_step,
        if_neg (fun hc => hlt hc.2)]

/-- C9 (amended): `process_client` retries an iteration only when it ends in
an exception whose lowercased message contains one of the web-error keywords
(a much broader class than download timeouts), performing up to
`max_retries` (default 2) retries after the initial attempt: `k ≤ max_retries`
web-error exceptions followed by a success yield `True`; a non-web-error
exception ends the method with `False` immediately (it does not propagate);
`max_retries + 1` consecutive web-error exceptions exhaust the budget and
yield `False`; and an iteration that merely returns `False` (as a download
timeout does, via `_wait_for_file_download`'s `(False, None)` return) is
never retried. -/
theorem C9_retry_policy :
    (∀ (mr k : Nat) (msg : Str), is_web_error msg = true → k ≤ mr →
      process_client_loop mr true 0
        (List.replicate k (AttemptResult.raised msg) ++ [AttemptResult.success]) =
      some true)
    ∧ (∀ (mr rc : Nat) (msg : Str) (rest : List AttemptResult),
        is_web_error msg = false →
        process_client_loop mr true rc (AttemptResult.raised msg :: rest) = some false)
    ∧ (∀ (mr : Nat) (msg : Str), is_web_error msg = true →
        process_client_loop mr true 0
          (List.replicate (mr + 1) (AttemptResult.raised msg)) = some false)
    ∧ (∀ (mr rc : Nat) (reload : Bool) (rest : List AttemptResult),
        process_client_loop mr reload rc (AttemptResult.failReturn :: rest) = some false)
    ∧ process_client_default_max_retries = 2 := by
  refine ⟨?_, ?_, ?_, ?_, rfl⟩
  · intro mr k msg hweb hk
    exact process_client_loop_replicate_success mr msg hweb k 0 (by omega)
  · intro mr rc msg rest hweb
    rw [process_client_loop_raised_step, if_neg (fun hc => by simp [hweb] at hc)]
  · intro mr msg hweb
    exact process_client_loop_exhausted mr msg hweb mr 0 (by omega)
  · intro mr rc reload rest
    rfl

/-- Witness for the amended C9 at `max_retries = 2`. -/
theorem C9_retry_policy_witness :
    process_client_loop 2 true 0
      (List.replicate 2 (AttemptResult.raised ("timeout".data)) ++
        [AttemptResult.success]) = some true
    ∧ process_client_loop 2 true 0 [AttemptResult.raised ("boom".data)] = some false
    ∧ process_client_loop 2 true 0
        (List.replicate 3 (AttemptResult.raised ("timeout".data))) = some false :=
  ⟨C9_retry_policy.1 2 2 ("timeout".data) (by decide) (by decide),
   C9_retry_policy.2.1 2 0 ("boom".data) [] (by decide),
   C9_retry_policy.2.2.1 2 ("timeout".data) (by decide)⟩

end GfrSavant
